import Mathlib

/-!
Verification of the IM-system delivery core against its specification.

The definitions below are a shallow embedding of the Go source:

* `pkg/db/db.go` (websocket `Manager`: `AddClient`, `RemoveClient`,
  `SendToUser`, `pushOfflineMessages`, `storeOfflineMessage`),
* `pkg/redis/offline_messages.go` (`AddOfflineMessage`,
  `GetOfflineMessages`, `ClearOfflineMessages`),
* `pkg/redis` unread counters (`IncrementUnreadCount`,
  `DecrementUnreadCount`, `GetUnreadCount`, `SetUnreadCount`,
  `ResetUnreadCount`),
* `pkg/redis/message_cache.go` (`CachePrivateMessages`,
  `GetCachedPrivateMessages`),
* `pkg/redis/presence.go` (`SetUserPresence`, `RemoveUserPresence`,
  `GetOnlineUsersWithDetails`, `CleanExpiredPresence`),
* `internal/service` `MessageService.GetUnreadCount` and
  `MessageService.GetConversationList`.

Redis keyspaces are modelled as functions from the user id (the variable
part of the key) to the stored value; JSON (un)marshalling of the fixed
record shapes used by the code always succeeds and is modelled as the
identity on the corresponding structures.  Timestamps are natural
numbers.  Go field name `from` is rendered `fromID` (`from` is reserved
in Lean), and Go `Type` is rendered `type`.
-/

/-- Go `redis.OfflineMessage` (pkg/redis/offline_messages.go). -/
structure OfflineMessage where
  id : Nat
  senderID : Nat
  receiverID : Nat
  content : String
  type : String
  createdAt : Nat
  deriving DecidableEq, Repr

/-- Offline-message list capacity: `LTrim(key, 0, 99)` keeps 100 entries. -/
def offlineMessagesCap : Nat := 100

/-- The per-recipient redis offline keyspace `im:offline:<id>`,
newest-first, as left-pushed by `LPush`. -/
def OfflineStore : Type := Nat → List OfflineMessage

/-- Go `redis.AddOfflineMessage`: `LPush` the entry, refresh the TTL, then
`LTrim(key, 0, 99)`; net list effect is prepend-then-truncate. -/
def addOfflineMessage (store : OfflineStore) (receiverID : Nat)
    (message : OfflineMessage) : OfflineStore :=
  fun u =>
    if u = receiverID then (message :: store receiverID).take offlineMessagesCap
    else store u

/-- Go `redis.GetOfflineMessages`: `LRange(key, 0, limit-1)`, newest-first.
Every stored entry was marshalled from an `OfflineMessage`, so the
unmarshal-failure skip branch is vacuous here. -/
def getOfflineMessages (store : OfflineStore) (receiverID : Nat)
    (limit : Nat) : List OfflineMessage :=
  (store receiverID).take limit

/-- Go `redis.ClearOfflineMessages`: `Del` on the list key. -/
def clearOfflineMessages (store : OfflineStore) (receiverID : Nat) :
    OfflineStore :=
  fun u => if u = receiverID then [] else store u

/-- The wire payload handed to `Manager.SendToUser`: every caller
marshals a map with exactly these keys (`service.SendMessage` and the
unread push in `websocket.WsHandler`). -/
structure WireMsg where
  type : String
  fromID : Nat
  toID : Nat
  content : String
  msgID : Nat
  timestamp : Nat
  deriving DecidableEq, Repr

/-- The `offline_message` frame marshalled by `pushOfflineMessages`. -/
structure OfflineFrame where
  type : String
  id : Nat
  senderID : Nat
  content : String
  createdAt : Nat
  deriving DecidableEq, Repr

/-- A frame sitting in a client's `Send` channel. -/
inductive Frame where
  | wire (w : WireMsg)
  | offlinePush (o : OfflineFrame)
  deriving DecidableEq, Repr

/-- Go `websocket.Client`.  `conn` identifies the underlying socket (it
distinguishes two connections of the same user); `sendQueue` is the
contents of the buffered `Send` channel, FIFO, head = oldest. -/
structure Client where
  userID : Nat
  conn : Nat
  sendQueue : List Frame
  deriving DecidableEq, Repr

/-- Capacity of the `Send` channel: `make(chan []byte, 256)` in
`websocket.WsHandler`. -/
def sendQueueCap : Nat := 256

/-- Go `websocket.Manager`: the registry map plus the redis offline
keyspace it writes through. -/
structure ManagerState where
  clients : Nat → Option Client
  offline : OfflineStore

/-- The empty manager. -/
def managerEmpty : ManagerState :=
  { clients := fun _ => none, offline := fun _ => [] }

/-- Go `Manager.AddClient`: unconditionally installs `client` as the map
entry for `userID`.  The prior entry, if any, is neither closed nor
otherwise released; the async `pushOfflineMessages` it spawns is
modelled separately as `pushOfflineMessages`. -/
def addClient (s : ManagerState) (userID : Nat) (client : Client) :
    ManagerState :=
  { s with clients := fun u => if u = userID then some client else s.clients u }

/-- Go `Manager.RemoveClient`: if any entry exists for `userID`, close its
channel and delete the entry.  The Go signature takes only the user id:
there is no handle/generation argument, so whichever connection is
currently registered is the one evicted. -/
def removeClient (s : ManagerState) (userID : Nat) : ManagerState :=
  match s.clients userID with
  | some _ => { s with clients := fun u => if u = userID then none else s.clients u }
  | none => s

/-- One non-blocking channel send (`select { case ch <- msg: default: }`):
append if the buffer has room, otherwise drop the frame. -/
def trySend (q : List Frame) (f : Frame) : List Frame :=
  if q.length < sendQueueCap then q ++ [f] else q

/-- The offline entry `Manager.storeOfflineMessage` builds from the
payload's `from`/`content`/`type` fields; the `ID` field is left at its
zero value and `now` is `time.Now()`. -/
def offlineEntryOf (userID : Nat) (w : WireMsg) (now : Nat) : OfflineMessage :=
  { id := 0, senderID := w.fromID, receiverID := userID,
    content := w.content, type := w.type, createdAt := now }

/-- Go `Manager.storeOfflineMessage`: unmarshal the payload and
`AddOfflineMessage` the entry built from it. -/
def storeOfflineMessage (store : OfflineStore) (userID : Nat)
    (w : WireMsg) (now : Nat) : OfflineStore :=
  addOfflineMessage store userID (offlineEntryOf userID w now)

/-- Go `Manager.SendToUser`: live client → non-blocking enqueue on its
`Send` channel (full buffer drops the frame and nothing else happens);
no client → `storeOfflineMessage` (its goroutine's effect is the state
update).  The Go function returns nothing and cannot fail. -/
def sendToUser (s : ManagerState) (userID : Nat) (w : WireMsg)
    (now : Nat) : ManagerState :=
  match s.clients userID with
  | some client =>
      { s with clients := fun u =>
          if u = userID then
            some { client with sendQueue := trySend client.sendQueue (.wire w) }
          else s.clients u }
  | none => { s with offline := storeOfflineMessage s.offline userID w now }

/-- The `offline_message` frame built for one drained entry. -/
def offlineFrameOf (msg : OfflineMessage) : OfflineFrame :=
  { type := "offline_message", id := msg.id, senderID := msg.senderID,
    content := msg.content, createdAt := msg.createdAt }

/-- Go `Manager.pushOfflineMessages`: read at most 50 entries
(`GetOfflineMessages(userID, 50)`), push a frame per entry to the new
connection, then `ClearOfflineMessages` deletes the whole list.  The
blocking channel sends are modelled as succeeding (the 5-second timeout
abort is a timing behaviour with no deterministic embedding).  Returns
the frames pushed to the connection together with the new state. -/
def pushOfflineMessages (s : ManagerState) (userID : Nat) :
    List OfflineFrame × ManagerState :=
  let offlineMessages := getOfflineMessages s.offline userID 50
  (offlineMessages.map offlineFrameOf,
   { s with offline := clearOfflineMessages s.offline userID })

/-! ## Unread counters (`pkg/redis`, unread-count keyspace `im:unread:`) -/

/-- The unread-counter keyspace: `some v` when the key exists with value
`v`, `none` when absent.  TTLs (24h, refreshed on increment) only delete
keys and are subsumed by the absent state. -/
def UnreadStore : Type := Nat → Option Int

/-- Go `redis.IncrementUnreadCount`: `INCR` (an absent key counts from 0)
then `Expire`. -/
def incrementUnreadCount (store : UnreadStore) (userID : Nat) : UnreadStore :=
  fun u => if u = userID then some ((store userID).getD 0 + 1) else store u

/-- Go `redis.DecrementUnreadCount`: `DECR`, then `Get`, and if the value
is `≤ 0` the key is deleted. -/
def decrementUnreadCount (store : UnreadStore) (userID : Nat) : UnreadStore :=
  let v := (store userID).getD 0 - 1
  fun u => if u = userID then (if v ≤ 0 then none else some v) else store u

/-- Go `redis.GetUnreadCount` with the client reachable: the cached value
when the key exists, and the sentinel `-1` (documented in the source as
"fetch from the database") when the key is absent. -/
def getUnreadCount (store : UnreadStore) (userID : Nat) : Int :=
  match store userID with
  | some v => v
  | none => -1

/-- Go `redis.SetUnreadCount`: `SET` with TTL. -/
def setUnreadCount (store : UnreadStore) (userID : Nat) (count : Int) :
    UnreadStore :=
  fun u => if u = userID then some count else store u

/-- Go `redis.ResetUnreadCount`: `DEL` on the key. -/
def resetUnreadCount (store : UnreadStore) (userID : Nat) : UnreadStore :=
  fun u => if u = userID then none else store u

/-- State seen by `MessageService.GetUnreadCount`: the redis counter
keyspace, whether the redis read itself returns a non-nil error (client
not initialised / transport failure — an absent key is *not* an error),
and the durable store's unread count per user. -/
structure MessageSvcState where
  unread : UnreadStore
  redisGetErr : Bool
  dbUnread : Nat → Int

/-- Go `MessageService.GetUnreadCount`: return the redis value whenever the
redis call returns no error (including the `-1` absent sentinel);
only on a redis error fall back to the durable count and repopulate
via `SetUnreadCount`.  Returns the value and the post-state. -/
def serviceGetUnreadCount (s : MessageSvcState) (userID : Nat) :
    Int × MessageSvcState :=
  if s.redisGetErr then
    let dbCount := s.dbUnread userID
    (dbCount, { s with unread := setUnreadCount s.unread userID dbCount })
  else
    (getUnreadCount s.unread userID, s)

/-! ## Message / conversation cache (`pkg/redis/message_cache.go`) -/

/-- Go `model.Message` (internal/model).  The gorm soft-delete column
`DeletedAt` is bookkeeping of the durable store and is not part of the
value the cache handles. -/
structure Message where
  id : Nat
  sessionType : Int
  senderID : Nat
  receiverID : Nat
  groupID : Option Nat
  content : String
  msgType : String
  status : String
  isRead : Bool
  createdAt : Nat
  updatedAt : Nat
  deriving DecidableEq, Repr

/-- Go `redis.CachedMessage`: the projection of a message that the chat
cache serialises. -/
structure CachedMessage where
  id : Nat
  senderID : Nat
  receiverID : Nat
  content : String
  isRead : Bool
  createdAt : Nat
  updatedAt : Nat
  deriving DecidableEq, Repr

/-- The conversion performed inside `CachePrivateMessages`. -/
def toCachedMessage (m : Message) : CachedMessage :=
  { id := m.id, senderID := m.senderID, receiverID := m.receiverID,
    content := m.content, isRead := m.isRead,
    createdAt := m.createdAt, updatedAt := m.updatedAt }

/-- The conversion performed inside `GetCachedPrivateMessages`: fields
outside the cached projection take their Go zero values
(`SessionType 0`, `GroupID nil`, `MsgType ""`, `Status ""`). -/
def fromCachedMessage (c : CachedMessage) : Message :=
  { id := c.id, sessionType := 0, senderID := c.senderID,
    receiverID := c.receiverID, groupID := none, content := c.content,
    msgType := "", status := "", isRead := c.isRead,
    createdAt := c.createdAt, updatedAt := c.updatedAt }

/-- Key canonicalisation used by the chat cache: the smaller user id
first (`if userID1 > userID2 { swap }`). -/
def canonPair (userID1 userID2 : Nat) : Nat × Nat :=
  if userID1 > userID2 then (userID2, userID1) else (userID1, userID2)

/-- The `im:chat:<a>:<b>` keyspace.  Values are stored marshalled; the
(un)marshalling of `[]CachedMessage` is invertible, so the store holds
the list itself. -/
def ChatCacheStore : Type := Nat × Nat → Option (List CachedMessage)

/-- Go `redis.CachePrivateMessages`: canonicalise the pair, project every
message to its cached form, `Set` with TTL. -/
def cachePrivateMessages (store : ChatCacheStore) (userID1 userID2 : Nat)
    (messages : List Message) : ChatCacheStore :=
  fun k =>
    if k = canonPair userID1 userID2 then some (messages.map toCachedMessage)
    else store k

/-- Go `redis.GetCachedPrivateMessages`: canonicalise the pair, read the
key (`none` = `redis.Nil`, a miss), unmarshal and convert each entry
back to a `model.Message`. -/
def getCachedPrivateMessages (store : ChatCacheStore)
    (userID1 userID2 : Nat) : Option (List Message) :=
  (store (canonPair userID1 userID2)).map (List.map fromCachedMessage)

/-! ## Conversation list (`MessageService.GetConversationList`) -/

/-- Go `redis.CachedConversation`. -/
structure CachedConversation where
  userID : Nat
  username : String
  lastMessage : String
  lastTime : Nat
  unreadCount : Int
  deriving DecidableEq, Repr

/-- Go `redis.MaxCachedConversations`. -/
def maxCachedConversations : Nat := 10

/-- State seen by `MessageService.GetConversationList`: the
`im:conversations:<id>` keyspace, the unread-counter keyspace, the
durable `GetRecentConversations(userID, n)` query and the durable
username lookup. -/
structure ConvSvcState where
  convCache : Nat → Option (List CachedConversation)
  unread : UnreadStore
  recentConversations : Nat → Nat → List Message
  usernames : Nat → String

/-- One step of the `conversationMap` construction: group the message
under the counterpart id, keeping the most recent content/time
(`msg.CreatedAt.After(conv.LastTime)` is a strict comparison).  The Go
code accumulates in a map whose iteration order is unspecified; the
association list keeps first-insertion order, which the claims proved
below do not depend on. -/
def upsertConv (userID : Nat) (usernames : Nat → String)
    (acc : List CachedConversation) (msg : Message) :
    List CachedConversation :=
  let otherUserID := if msg.senderID = userID then msg.receiverID else msg.senderID
  if acc.any (fun c => c.userID == otherUserID) then
    acc.map (fun c =>
      if c.userID == otherUserID then
        if c.lastTime < msg.createdAt then
          { c with lastMessage := msg.content, lastTime := msg.createdAt }
        else c
      else c)
  else
    acc ++ [{ userID := otherUserID, username := usernames otherUserID,
              lastMessage := msg.content, lastTime := msg.createdAt,
              unreadCount := 0 }]

/-- The source exchange-sorts the slice descending by `LastTime`; since
the slice order entering the sort is the unspecified map iteration
order, the result is modelled as the descending sort. -/
def sortConvs (conversations : List CachedConversation) :
    List CachedConversation :=
  conversations.insertionSort (fun a b => b.lastTime ≤ a.lastTime)

/-- The cache-miss path of `GetConversationList`: rebuild from the
durable store's recent messages, group by counterpart, sort descending
by last-activity time, truncate, and overwrite every entry's
`UnreadCount` with the owner's single `redis.GetUnreadCount(userID)`
value. -/
def convListMiss (s : ConvSvcState) (userID : Nat) (limit : Int) :
    List CachedConversation :=
  let messages := s.recentConversations userID (limit.toNat * 2)
  let conversations := messages.foldl (upsertConv userID s.usernames) []
  ((sortConvs conversations).take limit.toNat).map
    (fun c => { c with unreadCount := getUnreadCount s.unread userID })

/-- Go `MessageService.GetConversationList`: normalise the limit, return
the cached list when the key exists and is non-empty, and fall back to
`convListMiss` otherwise.  The trailing asynchronous
`CacheConversations` goroutine does not affect the returned list and is
not modelled. -/
def getConversationList (s : ConvSvcState) (userID : Nat) (limit0 : Int) :
    List CachedConversation :=
  let limit : Int :=
    if limit0 ≤ 0 ∨ (maxCachedConversations : Int) < limit0 then
      (maxCachedConversations : Int)
    else limit0
  match s.convCache userID with
  | some cached =>
      if 0 < cached.length then cached.take limit.toNat
      else convListMiss s userID limit
  | none => convListMiss s userID limit

/-! ## Presence (`pkg/redis/presence.go`) -/

/-- Go `redis.PresenceData`. -/
structure PresenceData where
  userID : Nat
  username : String
  status : String
  lastSeen : Nat
  connected : Bool
  deriving DecidableEq, Repr

/-- Go `redis.PresenceTTL` (2 minutes), in seconds. -/
def presenceTTL : Nat := 120

/-- The presence keyspace and online-user set.  `records u` holds the
stored value together with its absolute expiry deadline; redis expiry is
lazy, so an expired key simply behaves as absent on every read
(`liveRecord`).  `onlineSet` is the `im:online:users` set (a redis set:
no duplicates arise from the operations below). -/
structure PresenceState where
  records : Nat → Option (PresenceData × Nat)
  onlineSet : List Nat
  clock : Nat

/-- The state with no presence data. -/
def presenceEmpty : PresenceState :=
  { records := fun _ => none, onlineSet := [], clock := 0 }

/-- What a read of `im:presence:user:<u>` returns now: the record if the
key exists and is unexpired, otherwise nothing. -/
def liveRecord (s : PresenceState) (u : Nat) : Option PresenceData :=
  match s.records u with
  | some (p, deadline) => if s.clock < deadline then some p else none
  | none => none

/-- Go `SAdd` on the online set. -/
def sAdd (l : List Nat) (u : Nat) : List Nat :=
  if u ∈ l then l else l ++ [u]

/-- Go `SRem` on the online set. -/
def sRem (l : List Nat) (u : Nat) : List Nat :=
  l.filter (fun x => x != u)

/-- Go `redis.SetUserPresence`: write the `PresenceData` with TTL, then
`SAdd` the id to the online set when the status is `"online"` and `SRem`
it otherwise. -/
def setUserPresence (s : PresenceState) (userID : Nat)
    (username status : String) : PresenceState :=
  let presence : PresenceData :=
    { userID := userID, username := username, status := status,
      lastSeen := s.clock, connected := status = "online" }
  { s with
    records := fun u =>
      if u = userID then some (presence, s.clock + presenceTTL) else s.records u,
    onlineSet :=
      if status = "online" then sAdd s.onlineSet userID
      else sRem s.onlineSet userID }

/-- Go `redis.RemoveUserPresence`: delete the key and `SRem` the id. -/
def removeUserPresence (s : PresenceState) (userID : Nat) : PresenceState :=
  { s with
    records := fun u => if u = userID then none else s.records u,
    onlineSet := sRem s.onlineSet userID }

/-- Passage of `n` time units; no key is touched, but reads past a
deadline now fail. -/
def tick (s : PresenceState) (n : Nat) : PresenceState :=
  { s with clock := s.clock + n }

/-- The lazy prune shared by `GetOnlineUsersWithDetails` (which `SRem`s
every member whose record read fails) and `CleanExpiredPresence` (which
`SRem`s every member whose key has no TTL left; every key this code
writes carries a TTL, so the conditions coincide: the record is absent
or expired). -/
def pruneOnlineSet (s : PresenceState) : PresenceState :=
  { s with onlineSet := s.onlineSet.filter (fun u => (liveRecord s u).isSome) }

/-- Go `redis.GetOnlineUsersWithDetails`: resolve every member of the
online set, pruning the ids whose record has expired; returns the
resolved records and the pruned state. -/
def getOnlineUsersWithDetails (s : PresenceState) :
    List PresenceData × PresenceState :=
  (s.onlineSet.filterMap (liveRecord s), pruneOnlineSet s)

/-- Go `redis.CleanExpiredPresence` (periodic sweep). -/
def cleanExpiredPresence (s : PresenceState) : PresenceState :=
  pruneOnlineSet s

/-- The presence invariant that actually holds between the online set
and the keyspace: a member of the set is exactly a user whose record
exists, is unexpired, and was written with status `"online"`. -/
def PresenceInv (s : PresenceState) : Prop :=
  ∀ u, u ∈ s.onlineSet ↔ ∃ p, liveRecord s u = some p ∧ p.status = "online"

/-! ## Concrete fixtures used by witnesses and counterexamples -/

/-- A distinguishable offline entry. -/
def offMsg (i : Nat) : OfflineMessage :=
  { id := i, senderID := i, receiverID := 1, content := "m", type := "chat",
    createdAt := i }

/-- A manager whose user 1 is offline with 51 buffered entries
(newest-first), one more than the reconnect push limit of 50. -/
def manager51 : ManagerState :=
  { clients := fun _ => none,
    offline := fun u => if u = 1 then (List.range 51).map offMsg else [] }

/-- A manager whose user 1 is offline with two buffered entries. -/
def manager2 : ManagerState :=
  { clients := fun _ => none,
    offline := fun u => if u = 1 then [offMsg 0, offMsg 1] else [] }

/-- A chat wire payload as marshalled by `service.SendMessage`. -/
def wireEx : WireMsg :=
  { type := "chat", fromID := 2, toID := 1, content := "hi", msgID := 7,
    timestamp := 5 }

/-- First connection of user 1. -/
def clientA : Client := { userID := 1, conn := 1, sendQueue := [] }

/-- Second connection of user 1. -/
def clientB : Client := { userID := 1, conn := 2, sendQueue := [] }

/-- A connection of user 1 whose `Send` buffer is full. -/
def clientFull : Client :=
  { userID := 1, conn := 3, sendQueue := List.replicate 256 (.wire wireEx) }

/-- A manager in which user 1 is connected through `clientFull`. -/
def managerFull : ManagerState :=
  { clients := fun u => if u = 1 then some clientFull else none,
    offline := fun _ => [] }

/-- Service state: redis reachable, user 1 has no counter record, the
durable store counts 5 unread messages for user 1. -/
def svcAbsent : MessageSvcState :=
  { unread := fun _ => none, redisGetErr := false, dbUnread := fun _ => 5 }

/-- A durable message carrying a non-empty `MsgType`, as every message
created by `service.SendMessage` does. -/
def msgEx : Message :=
  { id := 7, sessionType := 1, senderID := 2, receiverID := 1,
    groupID := none, content := "hi", msgType := "text", status := "sent",
    isRead := false, createdAt := 5, updatedAt := 5 }

/-- The empty chat cache. -/
def chatCacheEmpty : ChatCacheStore := fun _ => none

/-- Conversation-list service state: cold conversation cache, no
counter record, one durable message from user 2 to user 1. -/
def convSvcEx : ConvSvcState :=
  { convCache := fun _ => none,
    unread := fun _ => none,
    recentConversations := fun _ _ => [msgEx],
    usernames := fun u => if u = 2 then "bob" else "" }

/-- The single summary `getConversationList convSvcEx 1 3` returns. -/
def convEx : CachedConversation :=
  { userID := 2, username := "bob", lastMessage := "hi", lastTime := 5,
    unreadCount := -1 }

/-- Iterated `AddOfflineMessage` for one recipient (oldest first in
`msgs`). -/
def enqueueAll (msgs : List OfflineMessage) (store : OfflineStore)
    (u : Nat) : OfflineStore :=
  msgs.foldl (fun st x => addOfflineMessage st u x) store

/-- The empty offline keyspace. -/
def offStoreEmpty : OfflineStore := fun _ => []

/-- The empty unread-counter keyspace. -/
def unreadEmpty : UnreadStore := fun _ => none

/-- 101 distinct offline entries, one more than the list capacity. -/
def msgs101 : List OfflineMessage := (List.range 101).map offMsg

/-- The reachable presence state after `SetUserPresence(1, "alice",
"offline")` on the empty state: the record exists unexpired, yet the
user is not in the online set. -/
def presenceOffline1 : PresenceState :=
  setUserPresence presenceEmpty 1 "alice" "offline"

/-- The reachable presence state after `SetUserPresence(1, "alice",
"online")` followed by a full TTL of silence: the record has expired,
yet the user is still in the online set. -/
def presenceExpired1 : PresenceState :=
  tick (setUserPresence presenceEmpty 1 "alice" "online") presenceTTL

/-! ## Theorems -/

/-- C1: the spec requires that admitting a second connection for a user
releases the first and leaves exactly the second registered, and that a
release performed on behalf of the superseded first connection must not
evict the newer one.  Evaluating the embedded code: after `AddClient(1,
clientA); AddClient(1, clientB)` the registry holds exactly `clientB`,
but the teardown of `clientA` can only call `RemoveClient(1)` (there is
no handle argument), which evicts `clientB` and leaves the user with no
registered connection. -/
theorem registry_stale_release_evicts_newer :
    (addClient (addClient managerEmpty 1 clientA) 1 clientB).clients 1 =
      some clientB ∧
    (removeClient (addClient (addClient managerEmpty 1 clientA) 1 clientB)
      1).clients 1 = none := by
  exact ⟨rfl, rfl⟩

/-- C3: evaluating `MessageService.GetUnreadCount` on a user whose
counter record is absent while redis is reachable: the redis read
returns the sentinel `-1` with a nil error, so the service returns `-1`
to its caller, does not consult the durable store (which holds 5), and
does not repopulate the counter — the state is unchanged. -/
theorem serviceGetUnreadCount_surfaces_sentinel :
    serviceGetUnreadCount svcAbsent 1 = (-1, svcAbsent) ∧
    svcAbsent.dbUnread 1 = 5 ∧ (-1 : Int) ≠ 5 := by
  refine ⟨rfl, rfl, by decide⟩

/-- C4: for a user with no live connection, `SendToUser` cannot error
(it returns nothing) and stores the message in the offline queue:
the entry built from the payload is prepended (then trimmed to the
capacity of 100), and it appears in any subsequent
`GetOfflineMessages` drain with a positive limit. -/
theorem sendToUser_offline_is_queued (s : ManagerState) (userID : Nat)
    (w : WireMsg) (now limit : Nat)
    (h1 : s.clients userID = none) (h2 : 1 ≤ limit) :
    (sendToUser s userID w now).offline userID =
      (offlineEntryOf userID w now :: s.offline userID).take offlineMessagesCap ∧
    offlineEntryOf userID w now ∈
      getOfflineMessages (sendToUser s userID w now).offline userID limit := by
  have hmatch : sendToUser s userID w now =
      { s with offline := storeOfflineMessage s.offline userID w now } := by
    unfold sendToUser
    rw [h1]
  have hoff : (sendToUser s userID w now).offline userID =
      (offlineEntryOf userID w now :: s.offline userID).take offlineMessagesCap := by
    rw [hmatch]
    simp [storeOfflineMessage, addOfflineMessage]
  refine ⟨hoff, ?_⟩
  rw [getOfflineMessages, hoff]
  obtain ⟨k, rfl⟩ := Nat.exists_eq_add_of_le h2
  have h100 : (offlineEntryOf userID w now :: s.offline userID).take offlineMessagesCap
      = offlineEntryOf userID w now :: (s.offline userID).take 99 := rfl
  rw [h100, Nat.add_comm, List.take_succ_cons]
  exact List.mem_cons_self _ _

/-- C4 witness: user 1 is offline in the empty manager; the chat
payload `wireEx` lands in the offline queue and shows up in a drain of
limit 1. -/
theorem sendToUser_offline_is_queued_witness :
    (sendToUser managerEmpty 1 wireEx 5).offline 1 =
      (offlineEntryOf 1 wireEx 5 :: managerEmpty.offline 1).take offlineMessagesCap ∧
    offlineEntryOf 1 wireEx 5 ∈
      getOfflineMessages (sendToUser managerEmpty 1 wireEx 5).offline 1 1 :=
  sendToUser_offline_is_queued managerEmpty 1 wireEx 5 1 rfl (by decide)

/-- C5: for a user whose live connection has a full outbound buffer,
`SendToUser` drops the frame without blocking (the embedded call is a
total function of the pre-state): the offline keyspace is untouched and
the registered client — queue included — is unchanged. -/
theorem sendToUser_full_queue_drops (s : ManagerState) (userID : Nat)
    (w : WireMsg) (now : Nat) (client : Client)
    (h1 : s.clients userID = some client)
    (h2 : sendQueueCap ≤ client.sendQueue.length) :
    (sendToUser s userID w now).offline = s.offline ∧
    (sendToUser s userID w now).clients userID = some client := by
  have hmatch : sendToUser s userID w now =
      { s with clients := fun u =>
          if u = userID then
            some { client with sendQueue := trySend client.sendQueue (.wire w) }
          else s.clients u } := by
    unfold sendToUser
    rw [h1]
  rw [hmatch]
  refine ⟨rfl, ?_⟩
  simp [trySend, Nat.not_lt.mpr h2]

/-- C5 witness: user 1 is connected with all 256 buffer slots taken;
the send leaves both the offline keyspace and the client untouched. -/
theorem sendToUser_full_queue_drops_witness :
    (sendToUser managerFull 1 wireEx 5).offline = managerFull.offline ∧
    (sendToUser managerFull 1 wireEx 5).clients 1 = some clientFull :=
  sendToUser_full_queue_drops managerFull 1 wireEx 5 clientFull rfl
    (by rw [show clientFull.sendQueue = List.replicate 256 (.wire wireEx) from rfl,
          List.length_replicate]
        exact Nat.le_refl 256)

/-- C7: incrementing then decrementing the unread counter of a user
with no pre-existing record deletes the record again (the decremented
value 0 is `≤ 0`, so the key is removed), and after `ResetUnreadCount`
a `GetUnreadCount` returns the `-1` absent sentinel, the miss that
tells the caller to recompute from the durable store. -/
theorem unreadCounter_incr_decr_reset (store store2 : UnreadStore)
    (u u2 : Nat) (h : store u = none) :
    decrementUnreadCount (incrementUnreadCount store u) u u = none ∧
    getUnreadCount (resetUnreadCount store2 u2) u2 = -1 := by
  constructor
  · simp [decrementUnreadCount, incrementUnreadCount, h]
  · simp [getUnreadCount, resetUnreadCount]

/-- C7 witness: on the empty counter keyspace with user 1, and a reset
of user 2. -/
theorem unreadCounter_incr_decr_reset_witness :
    decrementUnreadCount (incrementUnreadCount unreadEmpty 1) 1 1 = none ∧
    getUnreadCount (resetUnreadCount unreadEmpty 2) 2 = -1 :=
  unreadCounter_incr_decr_reset unreadEmpty unreadEmpty 1 2 rfl

/-- Truncating inside the appended suffix is absorbed by the outer
truncation. -/
theorem take_append_take {α : Type} (n : Nat) (a b : List α) :
    (a ++ b.take n).take n = (a ++ b).take n := by
  rw [List.take_append_eq_append_take, List.take_append_eq_append_take,
    List.take_take, Nat.min_eq_left (Nat.sub_le _ _)]

/-- Iterating `AddOfflineMessage` at least once leaves the reversed
batch on top of the prior contents, truncated to capacity. -/
theorem enqueueAll_cons_eq (msgs : List OfflineMessage) (m : OfflineMessage)
    (store : OfflineStore) (u : Nat) :
    enqueueAll (m :: msgs) store u u =
      ((m :: msgs).reverse ++ store u).take offlineMessagesCap := by
  induction msgs generalizing m store with
  | nil => simp [enqueueAll, addOfflineMessage]
  | cons m2 rest ih =>
      have hstep : enqueueAll (m :: m2 :: rest) store u =
          enqueueAll (m2 :: rest) (addOfflineMessage store u m) u := rfl
      rw [hstep, ih]
      have hadd : addOfflineMessage store u m u =
          (m :: store u).take offlineMessagesCap := by
        simp [addOfflineMessage]
      rw [hadd, take_append_take]
      simp [List.append_assoc]

/-- C6: enqueueing more than 100 offline messages for one recipient
(oldest first in `msgs`) leaves exactly the 100 newest, newest-first
(the reversed enqueue order, truncated to 100), whatever the prior
contents of the queue; and an individual `AddOfflineMessage` never
leaves more than 100 entries, so the bound holds after every single
enqueue. -/
theorem addOfflineMessage_capacity (msgs : List OfflineMessage)
    (store : OfflineStore) (u r : Nat) (m : OfflineMessage)
    (h : offlineMessagesCap < msgs.length) :
    enqueueAll msgs store u u = msgs.reverse.take offlineMessagesCap ∧
    (enqueueAll msgs store u u).length = offlineMessagesCap ∧
    (addOfflineMessage store r m r).length ≤ offlineMessagesCap := by
  match msgs, h with
  | m0 :: rest, h =>
    have hfold := enqueueAll_cons_eq rest m0 store u
    have hlen : offlineMessagesCap ≤ (m0 :: rest).reverse.length := by
      rw [List.length_reverse]
      exact Nat.le_of_lt h
    have heq : enqueueAll (m0 :: rest) store u u =
        (m0 :: rest).reverse.take offlineMessagesCap := by
      rw [hfold, List.take_append_of_le_length hlen]
    refine ⟨heq, ?_, ?_⟩
    · rw [heq, List.length_take, Nat.min_eq_left hlen]
    · have : addOfflineMessage store r m r =
          (m :: store r).take offlineMessagesCap := by
        simp [addOfflineMessage]
      rw [this, List.length_take]
      exact Nat.min_le_left _ _

/-- C6 witness: 101 distinct entries enqueued into the empty keyspace
for user 1. -/
theorem addOfflineMessage_capacity_witness :
    enqueueAll msgs101 offStoreEmpty 1 1 = msgs101.reverse.take offlineMessagesCap ∧
    (enqueueAll msgs101 offStoreEmpty 1 1).length = offlineMessagesCap ∧
    (addOfflineMessage offStoreEmpty 1 (offMsg 0) 1).length ≤ offlineMessagesCap :=
  addOfflineMessage_capacity msgs101 offStoreEmpty 1 1 (offMsg 0)
    (by rw [show msgs101.length = 101 by simp [msgs101]]; exact Nat.lt_succ_self 100)

/-- C2 counterexample: user 1 reconnects with 51 buffered entries.  The
oldest entry is buffered but its frame is not among the frames pushed
(`GetOfflineMessages(userID, 50)` reads only 50), yet the following
`ClearOfflineMessages` empties the whole list — a buffered entry is
deleted without having been delivered. -/
theorem pushOfflineMessages_deletes_undelivered :
    offMsg 50 ∈ manager51.offline 1 ∧
    offlineFrameOf (offMsg 50) ∉ (pushOfflineMessages manager51 1).1 ∧
    (pushOfflineMessages manager51 1).2.offline 1 = [] := by
  refine ⟨by decide, by decide, rfl⟩

/-- C2 (amended): when the recipient has at most 50 buffered entries
(the reconnect read limit) and every push completes, the whole buffered
list is pushed to the new connection, newest-first, and only then is the
list cleared. -/
theorem pushOfflineMessages_small_backlog (s : ManagerState) (u : Nat)
    (h : (s.offline u).length ≤ 50) :
    (pushOfflineMessages s u).1 = (s.offline u).map offlineFrameOf ∧
    (pushOfflineMessages s u).2.offline u = [] := by
  constructor
  · show (getOfflineMessages s.offline u 50).map offlineFrameOf = _
    rw [getOfflineMessages, List.take_of_length_le h]
  · simp [pushOfflineMessages, clearOfflineMessages]

/-- C2 witness: user 1 reconnects with two buffered entries. -/
theorem pushOfflineMessages_small_backlog_witness :
    (pushOfflineMessages manager2 1).1 = (manager2.offline 1).map offlineFrameOf ∧
    (pushOfflineMessages manager2 1).2.offline 1 = [] :=
  pushOfflineMessages_small_backlog manager2 1 (by decide)

/-- C8 counterexample: populate the conversation cache of users (1,2)
with a message whose `MsgType` is `"text"` (as every message created by
`SendMessage` is) and read it back: the returned message carries
`MsgType = ""`, so the read-back list is not the populated list. -/
theorem cacheRoundtrip_not_identity :
    getCachedPrivateMessages (cachePrivateMessages chatCacheEmpty 1 2 [msgEx]) 1 2 =
      some [fromCachedMessage (toCachedMessage msgEx)] ∧
    (fromCachedMessage (toCachedMessage msgEx)).msgType = "" ∧
    msgEx.msgType = "text" ∧
    getCachedPrivateMessages (cachePrivateMessages chatCacheEmpty 1 2 [msgEx]) 1 2 ≠
      some [msgEx] := by
  refine ⟨rfl, rfl, rfl, by decide⟩

/-- C8 (amended): `CachePrivateMessages` then `GetCachedPrivateMessages`
on the same pair returns, before TTL expiry, a list of the same length
and order whose entries agree with the populated messages on every
cached attribute (the `CachedMessage` projection: id, sender, receiver,
content, read flag, created-at, updated-at); attributes outside the
projection (`SessionType`, `GroupID`, `MsgType`, `Status`) come back as
Go zero values rather than the populated ones. -/
theorem cacheRoundtrip_projection (store : ChatCacheStore) (a b : Nat)
    (ms : List Message) :
    getCachedPrivateMessages (cachePrivateMessages store a b ms) a b =
      some ((ms.map toCachedMessage).map fromCachedMessage) ∧
    ((ms.map toCachedMessage).map fromCachedMessage).map toCachedMessage =
      ms.map toCachedMessage ∧
    ∀ m ∈ (ms.map toCachedMessage).map fromCachedMessage,
      m.sessionType = 0 ∧ m.groupID = none ∧ m.msgType = "" ∧ m.status = "" := by
  refine ⟨?_, ?_, ?_⟩
  · simp [getCachedPrivateMessages, cachePrivateMessages]
  · rw [List.map_map, List.map_map]
    rfl
  · intro m hm
    rw [List.map_map] at hm
    obtain ⟨x, _, rfl⟩ := List.mem_map.mp hm
    exact ⟨rfl, rfl, rfl, rfl⟩

/-- Every conversation the miss path returns carries the owner's single
`GetUnreadCount` value, whatever grouping and sorting produced it. -/
theorem mem_convListMiss_unread (s : ConvSvcState) (userID : Nat)
    (limit : Int) (c : CachedConversation)
    (hc : c ∈ convListMiss s userID limit) :
    c.unreadCount = getUnreadCount s.unread userID := by
  simp only [convListMiss, List.mem_map] at hc
  obtain ⟨x, _, rfl⟩ := hc
  rfl

/-- C10: on a conversation-list cache miss, every summary
`GetConversationList` returns carries the same `UnreadCount`: the
owner's single global `GetUnreadCount` value (the cached counter, or
the `-1` absent sentinel), not a per-counterpart count. -/
theorem conversationList_uniform_unread (s : ConvSvcState) (userID : Nat)
    (limit0 : Int)
    (h : s.convCache userID = none ∨ s.convCache userID = some [])
    (c : CachedConversation)
    (hc : c ∈ getConversationList s userID limit0) :
    c.unreadCount = getUnreadCount s.unread userID := by
  unfold getConversationList at hc
  rcases h with h | h <;> rw [h] at hc
  · exact mem_convListMiss_unread _ _ _ _ hc
  · exact mem_convListMiss_unread _ _ _ _ hc

/-- C10 witness: in `convSvcEx` (cold cache, no counter record, one
durable message from user 2), the returned summary for user 2 carries
the `-1` sentinel as its unread count. -/
theorem conversationList_uniform_unread_witness :
    convEx.unreadCount = getUnreadCount convSvcEx.unread 1 :=
  conversationList_uniform_unread convSvcEx 1 3 (Or.inl rfl) convEx (by decide)

/-- Membership after `SAdd`. -/
theorem mem_sAdd {l : List Nat} {a u : Nat} : u ∈ sAdd l a ↔ u ∈ l ∨ u = a := by
  unfold sAdd
  split
  · rename_i hmem
    constructor
    · exact Or.inl
    · rintro (hu | rfl)
      · exact hu
      · exact hmem
  · simp

/-- Membership after `SRem`. -/
theorem mem_sRem {l : List Nat} {a u : Nat} : u ∈ sRem l a ↔ u ∈ l ∧ u ≠ a := by
  simp [sRem, List.mem_filter]

/-- Reading a presence key right after `SetUserPresence` wrote it. -/
theorem liveRecord_setUserPresence (s : PresenceState) (userID x : Nat)
    (username status : String) :
    liveRecord (setUserPresence s userID username status) x =
      if x = userID then
        some { userID := userID, username := username, status := status,
               lastSeen := s.clock, connected := status = "online" }
      else liveRecord s x := by
  unfold liveRecord setUserPresence
  by_cases hx : x = userID
  · subst hx
    have hlt : s.clock < s.clock + presenceTTL :=
      Nat.lt_add_of_pos_right (by decide)
    simp [hlt]
  · simp [hx]

/-- Reading a presence key right after `RemoveUserPresence` deleted it. -/
theorem liveRecord_removeUserPresence (s : PresenceState) (userID x : Nat) :
    liveRecord (removeUserPresence s userID) x =
      if x = userID then none else liveRecord s x := by
  unfold liveRecord removeUserPresence
  by_cases hx : x = userID <;> simp [hx]

/-- A key still readable after time passed was readable before. -/
theorem liveRecord_tick_some (s : PresenceState) (n x : Nat) (p : PresenceData)
    (h : liveRecord (tick s n) x = some p) : liveRecord s x = some p := by
  cases hrec : s.records x with
  | none => simp [liveRecord, tick, hrec] at h
  | some pd =>
      obtain ⟨q, d⟩ := pd
      simp [liveRecord, tick, hrec] at h ⊢
      obtain ⟨hd, rfl⟩ := h
      exact ⟨Nat.lt_of_le_of_lt (Nat.le_add_right _ _) hd, rfl⟩

/-- The invariant holds in the empty presence state. -/
theorem presenceInv_empty : PresenceInv presenceEmpty := by
  intro u
  simp [presenceEmpty, liveRecord]

/-- Go `SetUserPresence` preserves the invariant, for either status. -/
theorem presenceInv_set (s : PresenceState) (userID : Nat)
    (username status : String) (h : PresenceInv s) :
    PresenceInv (setUserPresence s userID username status) := by
  intro x
  rw [liveRecord_setUserPresence]
  have hset : (setUserPresence s userID username status).onlineSet =
      if status = "online" then sAdd s.onlineSet userID
      else sRem s.onlineSet userID := rfl
  rw [hset]
  by_cases hx : x = userID
  · subst hx
    by_cases hst : status = "online"
    · rw [if_pos hst, if_pos rfl]
      constructor
      · intro _
        exact ⟨_, rfl, hst⟩
      · intro _
        rw [mem_sAdd]
        exact Or.inr rfl
    · rw [if_neg hst, if_pos rfl]
      constructor
      · intro hmem
        rw [mem_sRem] at hmem
        exact absurd rfl hmem.2
      · rintro ⟨p, hp, hps⟩
        injection hp with hp2
        subst hp2
        exact absurd hps hst
  · rw [if_neg hx]
    by_cases hst : status = "online"
    · rw [if_pos hst, mem_sAdd]
      constructor
      · rintro (hmem | rfl)
        · exact (h x).mp hmem
        · exact absurd rfl hx
      · intro hex
        exact Or.inl ((h x).mpr hex)
    · rw [if_neg hst, mem_sRem]
      constructor
      · rintro ⟨hmem, _⟩
        exact (h x).mp hmem
      · intro hex
        exact ⟨(h x).mpr hex, hx⟩

/-- Go `RemoveUserPresence` preserves the invariant. -/
theorem presenceInv_remove (s : PresenceState) (userID : Nat)
    (h : PresenceInv s) : PresenceInv (removeUserPresence s userID) := by
  intro x
  rw [liveRecord_removeUserPresence]
  have hset : (removeUserPresence s userID).onlineSet =
      sRem s.onlineSet userID := rfl
  rw [hset, mem_sRem]
  by_cases hx : x = userID
  · subst hx
    rw [if_pos rfl]
    constructor
    · rintro ⟨_, hne⟩
      exact absurd rfl hne
    · rintro ⟨p, hp, _⟩
      exact absurd hp (by simp)
  · rw [if_neg hx]
    constructor
    · rintro ⟨hmem, _⟩
      exact (h x).mp hmem
    · intro hex
      exact ⟨(h x).mpr hex, hx⟩

/-- After any amount of time has passed, the lazy prune restores the
invariant: expired members are dropped from the set, surviving members
still have live online records. -/
theorem presenceInv_prune_tick (s : PresenceState) (n : Nat)
    (h : PresenceInv s) : PresenceInv (pruneOnlineSet (tick s n)) := by
  intro x
  have hset : (pruneOnlineSet (tick s n)).onlineSet =
      (tick s n).onlineSet.filter (fun u => (liveRecord (tick s n) u).isSome) := rfl
  have hlive : liveRecord (pruneOnlineSet (tick s n)) x =
      liveRecord (tick s n) x := rfl
  rw [hset, hlive, List.mem_filter]
  constructor
  · rintro ⟨hmem, hsome⟩
    obtain ⟨p, hp⟩ := Option.isSome_iff_exists.mp hsome
    have hs := liveRecord_tick_some s n x p hp
    obtain ⟨q, hq, hqs⟩ := (h x).mp hmem
    rw [hs] at hq
    injection hq with hq2
    subst hq2
    exact ⟨p, hp, hqs⟩
  · rintro ⟨p, hp, hps⟩
    have hs := liveRecord_tick_some s n x p hp
    refine ⟨(h x).mpr ⟨p, hs, hps⟩, ?_⟩
    rw [hp]
    rfl

/-- C9 counterexample: two reachable states refute the claimed
biconditional "in the online set iff the record exists unexpired".
After `SetUserPresence(1, "alice", "offline")` on the empty state the
record exists and is unexpired, yet user 1 is not in the online set;
after `SetUserPresence(1, "alice", "online")` followed by a full TTL of
silence the record is expired, yet user 1 is still in the set. -/
theorem presence_onlineSet_iff_fails :
    ((liveRecord presenceOffline1 1).isSome = true ∧
      1 ∉ presenceOffline1.onlineSet) ∧
    (1 ∈ presenceExpired1.onlineSet ∧
      (liveRecord presenceExpired1 1).isSome = false) := by
  refine ⟨⟨?_, ?_⟩, ?_, ?_⟩ <;> decide

/-- C9 (amended): the invariant that actually relates the online set to
the presence keyspace is `PresenceInv`: a user id is in the online set
iff its record exists, is unexpired, and has status `"online"`.  It
holds in the empty state and is preserved by `SetUserPresence` (either
status) and `RemoveUserPresence`; TTL expiry alone can break it
transiently, and the lazy prune performed by `CleanExpiredPresence` and
by `GetOnlineUsersWithDetails` restores it after any amount of elapsed
time. -/
theorem presence_onlineSet_invariant (s : PresenceState) (u u2 : Nat)
    (username status : String) (n : Nat) (h : PresenceInv s) :
    PresenceInv presenceEmpty ∧
    PresenceInv (setUserPresence s u username status) ∧
    PresenceInv (removeUserPresence s u2) ∧
    PresenceInv (cleanExpiredPresence (tick s n)) ∧
    PresenceInv (getOnlineUsersWithDetails s).2 :=
  ⟨presenceInv_empty, presenceInv_set s u username status h,
   presenceInv_remove s u2 h, presenceInv_prune_tick s n h,
   presenceInv_prune_tick s 0 h⟩

/-- C9 witness: the preservation theorem applied at the empty state. -/
theorem presence_onlineSet_invariant_witness :
    PresenceInv presenceEmpty ∧
    PresenceInv (setUserPresence presenceEmpty 1 "alice" "online") ∧
    PresenceInv (removeUserPresence presenceEmpty 2) ∧
    PresenceInv (cleanExpiredPresence (tick presenceEmpty 5)) ∧
    PresenceInv (getOnlineUsersWithDetails presenceEmpty).2 :=
  presence_onlineSet_invariant presenceEmpty 1 2 "alice" "online" 5
    presenceInv_empty
